import Mathlib

/-!
Verification of `api/index.py` (check-in kiosk backend proxy).

This file shallowly embeds the request/response-normalisation core of the
Flask application in `api/index.py`:

* `check_in_trailer` — outbound payload construction and upstream-response
  interpretation for trailer check-in (source lines 63–148);
* `format_date` / `format_status` — display formatting (lines 150–160);
* the `/api/auth`, `/api/scheduled`, `/api/search`, `/api/ha-track` route
  handlers (lines 163–279).

Upstream HTTP traffic is modelled by explicit outcome types: each place the
Python code performs a `requests.post` takes an oracle value (or function)
describing what the network returned, covering transport errors
(exceptions), non-2xx statuses, unparseable bodies and parsed JSON bodies.
JSON dictionaries are modelled by structures that carry exactly the fields
the code reads; for each field the Python default used by `.get` is the
structure's value for "absent" (absent list fields are `[]`, absent
scalars are `none`).
-/

/-- Python truthiness of a value that is either `None` (`none`) or a string:
`None` and `""` are falsy, every other string is truthy. -/
def pyTruthyStr : Option String → Bool
  | none => false
  | some s => s ≠ ""

/-- Python `str.strip()` with no argument: remove leading and trailing
whitespace (modelled with `Char.isWhitespace`, which covers the ASCII
whitespace actually exercised). -/
def pyStrip (s : String) : String :=
  String.mk (((s.toList.dropWhile Char.isWhitespace).reverse.dropWhile
    Char.isWhitespace).reverse)

/-- Python `str.lstrip("0")`: remove every leading `'0'` character. -/
def lstripZeros (s : String) : String :=
  String.mk (s.toList.dropWhile (fun c => c = '0'))

/-! ## Check-In Submission Engine (`check_in_trailer`, lines 63–148) -/

/-- One element of `messages.Message[]` in the upstream check-in response.
Only the `Description` field is read by the code; `none` models an absent
key (so `m.get("Description")` is `None`). -/
structure CheckInMessage where
  Description : Option String
deriving DecidableEq

/-- One element of the `errors` / `exceptions` arrays in the upstream
check-in response. Only `message` is read; `none` models an absent key. -/
structure CheckInError where
  message : Option String
deriving DecidableEq

/-- The fields of the parsed upstream check-in response body that
`check_in_trailer` reads. `success` is the Python truthiness of the
`success` field (absent key reads as falsy). `messages` is
`body.get("messages", {}).get("Message", [])`; `errors` and `exceptions`
are the corresponding arrays, with absent keys reading as `[]`. -/
structure CheckInBody where
  success : Bool
  messages : List CheckInMessage
  errors : List CheckInError
  exceptions : List CheckInError
deriving DecidableEq

/-- When `r.json()` raises, line 125 sets
`response_json = {"raw_text": r.text[:2000]}`. Every field the remaining
code reads from that dictionary (`success`, `messages`, `errors`,
`exceptions`) is absent, so its field-level view coincides with the empty
object `{}`. -/
def rawTextBody : CheckInBody :=
  { success := false, messages := [], errors := [], exceptions := [] }

/-- Outcome of the upstream `requests.post` on line 111.
`transportError detail` models an exception raised by the request itself
(caught on line 141, with `str(e) = detail`); `response ok parsed` models a
received response with `r.ok = ok` and `parsed = none` when the body is not
JSON (line 123's handler fires). -/
inductive CheckInUpstream where
  | transportError (detail : String)
  | response (ok : Bool) (parsed : Option CheckInBody)
deriving DecidableEq

/-- Result dictionary returned by `check_in_trailer`:
`{"success": True, "message": m}` or `{"success": False, "error": e}`
(`e = none` models a JSON `null` error value). -/
inductive CheckInResult where
  | success (message : String)
  | failure (error : Option String)
deriving DecidableEq

/-- Line 129: `next((m.get("Description") for m in msg_list if
m.get("Description")), "Check-in successful")` — the `Description` of the
first message whose `Description` is truthy, else the fallback string. -/
def firstDescription (msgs : List CheckInMessage) : String :=
  match msgs.find? (fun m => pyTruthyStr m.Description) with
  | some m => m.Description.getD ""
  | none => "Check-in successful"

/-- Lines 110–148 of `check_in_trailer`: interpretation of the upstream
check-in call's outcome into the normalised result. Line 135's
`response_json.get("errors", []) or response_json.get("exceptions", [])`
selects `errors` when that list is non-empty and `exceptions` otherwise. -/
def check_in_trailer (u : CheckInUpstream) : CheckInResult :=
  match u with
  | .transportError detail => .failure (some ("Request failed: " ++ detail))
  | .response ok parsed =>
    let body := parsed.getD rawTextBody
    if ok && body.success then
      .success (firstDescription body.messages)
    else
      match (if body.errors.isEmpty then body.exceptions else body.errors) with
      | [] => .failure (some "Unknown error")
      | e :: _ => .failure e.message

/-! ### Outbound check-in payload (lines 71–89) -/

/-- The subset of an input appointment record read by `check_in_trailer`
when building the outbound payload; `none` models an absent or `null`
field (both read identically through `.get`). A `ConditionCodeId` value
of `some ""` models an empty-string field. -/
structure ApptData where
  AppointmentId : Option String
  AppointmentTypeId : Option String
  CarrierId : Option String
  TrailerId : Option String
  EquipmentTypeId : Option String
  ConditionCodeId : Option String
deriving DecidableEq

/-- The `TrailerInfo` object of the outbound payload (lines 72–80).
`ConditionCodeId = none` means the key is omitted from the dictionary —
the code only ever inserts the key with a truthy value, so within the
model "no key" and `none` coincide. -/
structure TrailerInfoObj where
  CarrierId : Option String
  TrailerId : Option String
  EquipmentTypeId : Option String
  ConditionCodeId : Option String
deriving DecidableEq

/-- The `AppointmentInfo` object of the outbound payload (lines 83–86). -/
structure AppointmentInfoObj where
  AppointmentId : Option String
  AppointmentTypeId : String
deriving DecidableEq

/-- The outbound check-in payload (lines 82–89). -/
structure CheckInPayload where
  AppointmentInfo : AppointmentInfoObj
  VisitType : String
  TrailerInfo : TrailerInfoObj
deriving DecidableEq

/-- Lines 71–89: deterministic construction of the outbound payload from
the input appointment record. `appt_type = appt_data.get("AppointmentTypeId", "")`;
`ConditionCodeId` is inserted into `TrailerInfo` only when
`appt_data.get("ConditionCodeId")` is truthy. -/
def build_check_in_payload (a : ApptData) : CheckInPayload :=
  let appt_type := a.AppointmentTypeId.getD ""
  let trailer_info : TrailerInfoObj :=
    { CarrierId := a.CarrierId
      TrailerId := a.TrailerId
      EquipmentTypeId := a.EquipmentTypeId
      ConditionCodeId := if pyTruthyStr a.ConditionCodeId then a.ConditionCodeId else none }
  { AppointmentInfo := { AppointmentId := a.AppointmentId, AppointmentTypeId := appt_type }
    VisitType := appt_type
    TrailerInfo := trailer_info }

/-! ## Display formatting (`format_date`, `format_status`, lines 150–160) -/

/-- The em-dash placeholder returned by `format_date` for missing or
unparseable input. -/
def EM_DASH : String := "—"

/-- A naive datetime as produced by `datetime.fromisoformat`; the UTC
offset, when present, is validated but not stored, because
`strftime` formats the stored fields without any timezone conversion. -/
structure PyDateTime where
  year : Nat
  month : Nat
  day : Nat
  hour : Nat
  minute : Nat
  second : Nat
deriving DecidableEq

/-- Numeric value of a digit character. -/
def digitVal (c : Char) : Nat := c.toNat - 48

/-- Parse exactly `width` digit characters into a number, returning the
remaining characters. -/
def parseFixed (width : Nat) (cs : List Char) : Option (Nat × List Char) :=
  let ds := cs.take width
  if ds.length = width ∧ ds.all Char.isDigit then
    some (ds.foldl (fun acc c => acc * 10 + digitVal c) 0, cs.drop width)
  else none

/-- Consume one expected character. -/
def expectChar (c : Char) : List Char → Option (List Char)
  | x :: rest => if x = c then some rest else none
  | [] => none

/-- Number of days in a month of a given (proleptic Gregorian) year. -/
def daysInMonth (y m : Nat) : Nat :=
  if m = 2 then (if (y % 4 = 0 ∧ y % 100 ≠ 0) ∨ y % 400 = 0 then 29 else 28)
  else if m = 4 ∨ m = 6 ∨ m = 9 ∨ m = 11 then 30 else 31

/-- Models Python's `datetime.fromisoformat` on the shapes this program
feeds it: `YYYY-MM-DD`, optionally followed by one separator character and
`HH:MM` or `HH:MM:SS`, optionally followed by a `±HH:MM` UTC offset.
Out-of-range components or trailing garbage fail, as in Python
(`ValueError`), which `format_date` maps to the placeholder. -/
def fromisoformat (s : String) : Option PyDateTime := do
  let cs := s.toList
  let (y, cs1) ← parseFixed 4 cs
  let cs2 ← expectChar '-' cs1
  let (mo, cs3) ← parseFixed 2 cs2
  let cs4 ← expectChar '-' cs3
  let (d, cs5) ← parseFixed 2 cs4
  let (h, mi, se, rest) ←
    match cs5 with
    | [] => some (0, 0, 0, ([] : List Char))
    | _sep :: cs6 => do
      let (h, cs7) ← parseFixed 2 cs6
      let cs8 ← expectChar ':' cs7
      let (mi, cs9) ← parseFixed 2 cs8
      let (se, cs10) ←
        match cs9 with
        | ':' :: cs9a => parseFixed 2 cs9a
        | other => some (0, other)
      let rest ←
        match cs10 with
        | [] => some ([] : List Char)
        | sgn :: cs11 =>
          if sgn = '+' ∨ sgn = '-' then do
            let (oh, cs12) ← parseFixed 2 cs11
            let cs13 ← expectChar ':' cs12
            let (om, cs14) ← parseFixed 2 cs13
            if oh ≤ 23 ∧ om ≤ 59 then some cs14 else none
          else none
      some (h, mi, se, rest)
  if rest = [] ∧ 1 ≤ mo ∧ mo ≤ 12 ∧ 1 ≤ d ∧ d ≤ daysInMonth y mo ∧
      h ≤ 23 ∧ mi ≤ 59 ∧ se ≤ 59 then
    some ⟨y, mo, d, h, mi, se⟩
  else none

/-- Two-digit zero-padded rendering, as `strftime` uses for `%m`, `%d`,
`%I` and `%M`. -/
def two (n : Nat) : String := if n < 10 then "0" ++ toString n else toString n

/-- The 12-hour clock value (`%I`) of a 24-hour clock hour. -/
def hour12 (h : Nat) : Nat := if h % 12 = 0 then 12 else h % 12

/-- The `%p` directive: AM for hours 0–11, PM for hours 12–23. -/
def ampm (h : Nat) : String := if h < 12 then "AM" else "PM"

/-- Line 155: `dt.strftime("%m/%d %I:%M %p")`. -/
def strftime_md_IM_p (dt : PyDateTime) : String :=
  two dt.month ++ "/" ++ two dt.day ++ " " ++
  two (hour12 dt.hour) ++ ":" ++ two dt.minute ++ " " ++ ampm dt.hour

/-- Python `date_str.replace("Z", "+00:00")` (line 154), specialised to
the single-character pattern the code uses: every occurrence of `'Z'` is
replaced by `"+00:00"`. For a one-character pattern this coincides with
Python `str.replace` (occurrences cannot overlap). -/
def replaceZ (s : String) : String :=
  String.mk ((s.toList.map (fun c => if c = 'Z' then "+00:00".toList else [c])).flatten)

/-- Lines 150–157: `format_date`. The input is `appt.get('PreferredDateTime')`,
so `none` models an absent or `null` field; a falsy input (including `""`)
returns the placeholder directly, otherwise `"Z"` is replaced by `"+00:00"`,
the result parsed, formatted, and the whole string `lstrip`ped of `'0'`;
a parse failure returns the placeholder. -/
def format_date : Option String → String
  | none => EM_DASH
  | some s =>
    if s = "" then EM_DASH
    else
      match fromisoformat (replaceZ s) with
      | some dt => lstripZeros (strftime_md_IM_p dt)
      | none => EM_DASH

/-- Lines 28–31: the fixed status-code table. -/
def STATUS_MAP : List (String × String) :=
  [("1000", "Requested"), ("2000", "Countered"), ("3000", "Scheduled"),
   ("4000", "Checked In"), ("8000", "Complete"), ("9000", "Cancelled")]

/-- Lines 159–160: `STATUS_MAP.get(status_id, "Unknown")`, with `none`
modelling an absent `AppointmentStatusId`. -/
def format_status (status_id : Option String) : String :=
  match status_id with
  | none => "Unknown"
  | some s => (((STATUS_MAP.find? (fun p => p.1 = s)).map (fun p => p.2)).getD "Unknown")

/-! ## Credential Gateway (`get_manhattan_token`, lines 40–61; `/api/auth`,
lines 192–200) -/

/-- Outcome of the token-exchange `requests.post` on lines 50–57.
`unreachable detail` models an exception raised by the request itself
(host unreachable, timeout); `response ok body` models a received response
with `r.ok = ok` (so `raise_for_status` raises exactly when `ok = false`);
`body = none` models a body that `r.json()` cannot parse, and
`body = some t` a parsed JSON object whose `access_token` field is `t`
(`t = none` when the key is absent or `null`). -/
inductive AuthUpstream where
  | unreachable (detail : String)
  | response (ok : Bool) (body : Option (Option String))
deriving DecidableEq

/-- Lines 40–61: `get_manhattan_token`. The bare `except` on line 60 turns
every raised exception (transport error, `raise_for_status` on non-2xx,
JSON parse failure) into `None`; otherwise the function returns
`r.json().get("access_token")`. -/
def get_manhattan_token : AuthUpstream → Option String
  | .unreachable _ => none
  | .response false _ => none
  | .response true none => none
  | .response true (some t) => t

/-- Response body of the `/api/auth` route. -/
inductive AuthResponse where
  | success (token : String)
  | failure (error : String)
deriving DecidableEq

/-- Lines 192–200: the `/api/auth` handler. The org is stripped; an empty
org short-circuits with "ORG required"; a falsy token (`None` or `""`)
yields the fixed string "Auth failed". -/
def auth (org : String) (upstream : AuthUpstream) : AuthResponse :=
  let o := pyStrip org
  if o = "" then .failure "ORG required"
  else
    match get_manhattan_token upstream with
    | some t => if t = "" then .failure "Auth failed" else .success t
    | none => .failure "Auth failed"

/-! ## Telemetry (`send_ha_message`, lines 34–38; `/api/ha-track`,
lines 168–190) -/

/-- Whether the webhook delivery inside `send_ha_message` raised. -/
inductive DeliveryOutcome where
  | delivered
  | deliveryError (detail : String)
deriving DecidableEq

/-- Whether the body of the `/api/ha-track` handler raised before reaching
`send_ha_message` (e.g. a request body that is not a JSON object). -/
inductive HandlerOutcome where
  | bodyOk
  | bodyError (detail : String)
deriving DecidableEq

/-- Response body of `/api/ha-track`: only a `success` flag is returned. -/
structure TrackResponse where
  success : Bool
deriving DecidableEq

/-- Lines 34–38: `send_ha_message` posts to the webhook inside
`try: ... except: pass`, so every delivery outcome is swallowed. -/
def send_ha_message : DeliveryOutcome → Unit
  | _ => ()

/-- Lines 168–190: the `/api/ha-track` handler. On a successful body it
calls `send_ha_message` and returns `{"success": True}`; the handler's own
`except` (line 187) also returns `{"success": True}`. -/
def ha_track (h : HandlerOutcome) (d : DeliveryOutcome) : TrackResponse :=
  match h with
  | .bodyOk =>
    let _ := send_ha_message d
    { success := true }
  | .bodyError _ => { success := true }

/-! ## Appointment records and the `/api/search` handler (lines 245–279) -/

/-- The fields of an upstream appointment record that the search handlers
read; `none` models an absent or `null` field. -/
structure ApptRecord where
  AppointmentId : Option String
  PreferredDateTime : Option String
  AppointmentStatusId : Option String
deriving DecidableEq

/-- A record after the post-processing loop of lines 272–274 added the two
display fields. -/
structure AnnotatedAppt extends ApptRecord where
  ScheduledDate : String
  StatusText : String
deriving DecidableEq

/-- Lines 272–274: `appt['ScheduledDate'] = format_date(appt.get('PreferredDateTime'))`
and `appt['StatusText'] = format_status(appt.get('AppointmentStatusId'))`. -/
def annotate (a : ApptRecord) : AnnotatedAppt :=
  { a with
    ScheduledDate := format_date a.PreferredDateTime
    StatusText := format_status a.AppointmentStatusId }

/-- The JSON payload of one upstream search request (lines 261–265 and
223–231): the query string, `Size` and `Page`. -/
structure SearchRequest where
  Query : String
  Size : Nat
  Page : Nat
deriving DecidableEq

/-- A single-quote character, used verbatim in the search query string. -/
def singleQuote : String := (Char.ofNat 39).toString

/-- Lines 261–265: the one payload `search` builds —
`{"Query": f"AppointmentId = '{appointment_id}'", "Size": 1, "Page": 0}`. -/
def search_payload (appointment_id : String) : SearchRequest :=
  { Query := "AppointmentId = " ++ singleQuote ++ appointment_id ++ singleQuote
    Size := 1
    Page := 0 }

/-- Outcome of one upstream search `requests.post`. `transportError`
models an exception raised by the request; `response ok body` a received
response with `r.ok = ok` and `body = none` when `r.json()` raises,
`body = some l` when the parsed object's `data` field is the record list
`l` (absent `data` reads as `[]`, i.e. `some []`). -/
inductive UpstreamPage where
  | transportError (detail : String)
  | response (ok : Bool) (body : Option (List ApptRecord))
deriving DecidableEq

/-- Lines 266–270: `results = r.json().get("data", []) if r.ok else []`
inside `try`, with the bare `except` mapping any raised exception
(transport error, or `r.json()` on an OK but unparseable body) to `[]`.
A non-OK response never calls `r.json()` and yields `[]` directly. -/
def searchResults : UpstreamPage → List ApptRecord
  | .transportError _ => []
  | .response ok body => if ok then body.getD [] else []

/-- Response body of the `/api/search` route. -/
inductive SearchResponse where
  | success (results : List AnnotatedAppt)
  | failure (error : String)
deriving DecidableEq

/-- Lines 245–279: the `/api/search` handler. `appointment_id` is stripped
before the `all([org, appointment_id, token])` gate; the handler then
issues exactly one upstream request, `search_payload` of the stripped id,
post-processes the resulting records and always answers `success`. -/
def search (org appointment_id token : String)
    (upstream : SearchRequest → UpstreamPage) : SearchResponse :=
  let aid := pyStrip appointment_id
  if org = "" ∨ aid = "" ∨ token = "" then .failure "Missing data"
  else .success ((searchResults (upstream (search_payload aid))).map annotate)

/-! ## The `/api/scheduled` handler (lines 202–243) -/

/-- Outcome of the upstream search request for one page of the scheduled
fetch. `raises detail` models an exception raised while requesting or
parsing that page (caught by the handler-level `except` on line 242 with
`str(e) = detail`); `badStatus` a received response with `not r.ok`;
`data l` an OK response whose parsed `data` field is `l`. -/
inductive PageOutcome where
  | raises (detail : String)
  | badStatus
  | data (records : List ApptRecord)
deriving DecidableEq

/-- Response body of the `/api/scheduled` route. -/
inductive SchedResponse where
  | success (appointments : List ApptRecord)
  | failure (error : String)
deriving DecidableEq

/-- Lines 222–240: the `while True` pagination loop, with `Size = 1000`.
The loop is unbounded in the source; `fuel` bounds the recursion in the
model and every theorem below supplies enough fuel for the pages it
touches, so the artificial `fuel = 0` result is never reached. -/
def scheduledLoop (upstream : Nat → PageOutcome) : Nat → Nat → List ApptRecord → SchedResponse
  | 0, _, _ => .failure "out of fuel"
  | fuel + 1, page, acc =>
    match upstream page with
    | .raises detail => .failure detail
    | .badStatus => .failure "Failed to fetch scheduled appointments"
    | .data records =>
      if records.length < 1000 then .success (acc ++ records)
      else scheduledLoop upstream fuel (page + 1) (acc ++ records)

/-- Lines 202–243 (after the missing-data gate): the full paginated fetch,
starting at page 0 with an empty accumulator. -/
def scheduled (upstream : Nat → PageOutcome) (fuel : Nat) : SchedResponse :=
  scheduledLoop upstream fuel 0 []

/-! ## Multi-criterion OR search (spec §4.2)

The repository's sources describe two search revisions; only the single-id
revision is present under `api/`, so the multi-criterion OR revision is
modelled from the specification text. -/

/-- Modelled from the spec: a criterion delimiter is a comma, a semicolon
or a whitespace character. -/
def isCritDelim (c : Char) : Bool := c = ',' ∨ c = ';' ∨ c.isWhitespace

/-- Split a character list at every delimiter character (keeping empty
segments, exactly like `str.split` on a single delimiter); discarding the
empty segments afterwards collapses delimiter runs. -/
def splitChars : List Char → List (List Char)
  | [] => [[]]
  | c :: cs =>
    if isCritDelim c then [] :: splitChars cs
    else
      match splitChars cs with
      | [] => [[c]]
      | seg :: rest => (c :: seg) :: rest

/-- A single or double quote character (code points 39 and 34). -/
def isQuoteChar (c : Char) : Bool := c = (Char.ofNat 34) ∨ c = (Char.ofNat 39)

/-- Remove surrounding single/double quote characters from both ends. -/
def stripQuoteChars (cs : List Char) : List Char :=
  ((cs.dropWhile isQuoteChar).reverse.dropWhile isQuoteChar).reverse

/-- Modelled from the spec: the tokenizer of the multi-criterion search
revision, which is not present in `api/index.py`. "Input `criteriaText` is
tokenized on any run of commas, whitespace, or semicolons; each token is
trimmed and has surrounding single/double quotes stripped; empty tokens
after trimming are discarded." -/
def tokenizeCriteria (criteriaText : String) : List String :=
  ((splitChars criteriaText.toList).map (fun seg =>
    String.mk (stripQuoteChars (pyStrip (String.mk seg)).toList))).filter
      (fun t => t ≠ "")

/-- Modelled from the spec: the merge step of the multi-criterion search
revision, which is not present in `api/index.py`. "Merges all
per-criterion result sets by `AppointmentId`, keeping the first occurrence
and discarding later duplicates (set-based dedup keyed on id, insertion
order preserved for final ordering)." `seen` is the set of ids already
kept. -/
def dedupById : List ApptRecord → List (Option String) → List ApptRecord
  | [], _ => []
  | r :: rest, seen =>
    if r.AppointmentId ∈ seen then dedupById rest seen
    else r :: dedupById rest (r.AppointmentId :: seen)

/-- Modelled from the spec: the multi-criterion OR search revision, which
is not present in `api/index.py`. `upstream` maps one criterion token to
the (raw, pre-dedup) record list its upstream search returned — a failed
criterion contributes `[]` per the spec's degrade policy. Zero tokens fail
with `InvalidInput` (`none`); otherwise the per-criterion result lists are
concatenated in token order, deduplicated by `AppointmentId`, and each
kept record is annotated with the display fields. -/
def multiSearch (upstream : String → List ApptRecord) (criteriaText : String) :
    Option (List AnnotatedAppt) :=
  if tokenizeCriteria criteriaText = [] then none
  else some ((dedupById (((tokenizeCriteria criteriaText).map upstream).flatten) []).map
    annotate)

/-! ## Theorems -/

/-- The `next(...)` expression of line 129 picks exactly the head of the
list of non-empty `Description`s, in order, with the fixed fallback. -/
theorem firstDescription_eq (msgs : List CheckInMessage) :
    firstDescription msgs =
      ((msgs.filterMap CheckInMessage.Description).filter (fun d => d ≠ "")).headD
        "Check-in successful" := by
  induction msgs with
  | nil => rfl
  | cons m rest ih =>
    cases hD : m.Description with
    | none =>
      simpa [firstDescription, pyTruthyStr, hD, List.find?_cons, List.filterMap_cons]
        using ih
    | some d =>
      by_cases hd : d = ""
      · subst hd
        simpa [firstDescription, pyTruthyStr, hD, List.find?_cons, List.filterMap_cons]
          using ih
      · simp [firstDescription, pyTruthyStr, hD, List.find?_cons, List.filterMap_cons, hd]

/-- C1: for every check-in upstream response whose HTTP status indicates
success and whose parsed body has a truthy `success` field,
`check_in_trailer` returns success with message equal to the first
non-empty `Description` in the ordered list `messages.Message[]`, or
"Check-in successful" when no element has a non-empty `Description`. -/
theorem checkin_success_normalisation (body : CheckInBody) (hs : body.success = true) :
    check_in_trailer (.response true (some body)) =
      .success (((body.messages.filterMap CheckInMessage.Description).filter
        (fun d => d ≠ "")).headD "Check-in successful") := by
  simp [check_in_trailer, hs, firstDescription_eq]

/-- The body `{"success": true, "messages": {"Message": [{"Description": "OK"}]}}`. -/
def bodyOKExample : CheckInBody :=
  { success := true, messages := [⟨some "OK"⟩], errors := [], exceptions := [] }

/-- The body `{"success": true, "messages": {"Message": []}}`. -/
def bodyNoMsgExample : CheckInBody :=
  { success := true, messages := [], errors := [], exceptions := [] }

/-- Witness for C1, at the two bodies of the spec's examples. -/
theorem checkin_success_normalisation_witness :
    check_in_trailer (.response true (some bodyOKExample)) = .success "OK" ∧
    check_in_trailer (.response true (some bodyNoMsgExample)) =
      .success "Check-in successful" :=
  ⟨(checkin_success_normalisation bodyOKExample rfl).trans rfl,
   (checkin_success_normalisation bodyNoMsgExample rfl).trans rfl⟩

/-- C2: every received check-in response that is not
HTTP-success-with-truthy-`success` normalises to a failure whose error is
the `message` of the first element of `errors`, falling back to
`exceptions` when `errors` is absent or empty, and to "Unknown error" when
neither array has an element; and a body that fails to parse as JSON
behaves exactly as the empty object `{}`. -/
theorem checkin_failure_normalisation :
    (∀ (ok : Bool) (parsed : Option CheckInBody),
      ¬(ok = true ∧ (parsed.getD rawTextBody).success = true) →
      check_in_trailer (.response ok parsed) =
        .failure ((((parsed.getD rawTextBody).errors ++
          (parsed.getD rawTextBody).exceptions).head?.map CheckInError.message).getD
            (some "Unknown error"))) ∧
    (∀ ok : Bool, check_in_trailer (.response ok none) =
      check_in_trailer (.response ok
        (some ⟨false, [], [], []⟩))) := by
  constructor
  · intro ok parsed h
    have hcond : (ok && (parsed.getD rawTextBody).success) = false := by
      cases ok <;> cases hsucc : (parsed.getD rawTextBody).success <;> simp_all
    simp only [check_in_trailer, hcond, Bool.false_eq_true, if_false]
    cases herr : (parsed.getD rawTextBody).errors with
    | nil =>
      cases hexc : (parsed.getD rawTextBody).exceptions <;>
        simp [herr, hexc, List.isEmpty]
    | cons e es => simp [herr, List.isEmpty]
  · intro ok
    rfl

/-- The body `{"success": false, "errors": [{"message": "Carrier not found"}]}`. -/
def bodyErrExample : CheckInBody :=
  { success := false, messages := [], errors := [⟨some "Carrier not found"⟩],
    exceptions := [] }

/-- Witness for C2, at the spec's example failure body. -/
theorem checkin_failure_normalisation_witness :
    check_in_trailer (.response false (some bodyErrExample)) =
      .failure (some "Carrier not found") :=
  (checkin_failure_normalisation.1 false (some bodyErrExample) (by simp)).trans rfl

/-- C5: `check_in_trailer` omits `ConditionCodeId` from the outbound
`TrailerInfo` when the input field is absent, `null`, or the empty string,
and includes its value verbatim otherwise. -/
theorem conditionCode_omitted_or_verbatim (a : ApptData) :
    ((a.ConditionCodeId = none ∨ a.ConditionCodeId = some "") →
      (build_check_in_payload a).TrailerInfo.ConditionCodeId = none) ∧
    (∀ s, a.ConditionCodeId = some s → s ≠ "" →
      (build_check_in_payload a).TrailerInfo.ConditionCodeId = some s) := by
  constructor
  · rintro (h | h) <;> simp [build_check_in_payload, pyTruthyStr, h]
  · intro s hs hne
    simp [build_check_in_payload, pyTruthyStr, hs, hne]

/-- Witness for C5: an empty-string condition code is omitted and a
non-empty one is sent verbatim. -/
theorem conditionCode_omitted_or_verbatim_witness :
    (build_check_in_payload
      ⟨some "A1", some "LIVE", some "C1", some "T1", some "E1", some ""⟩
      ).TrailerInfo.ConditionCodeId = none ∧
    (build_check_in_payload
      ⟨some "A1", some "LIVE", some "C1", some "T1", some "E1", some "DMG"⟩
      ).TrailerInfo.ConditionCodeId = some "DMG" :=
  ⟨(conditionCode_omitted_or_verbatim _).1 (Or.inr rfl),
   (conditionCode_omitted_or_verbatim _).2 "DMG" rfl (by decide)⟩

/-- C6 counterexample: for the parseable timestamp of the claim,
`format_date` yields "3/05 02:30 PM" — `lstrip("0")` only strips the
leading zero of the whole string (the month), so the hour field (the two
characters after the space) is "02" and keeps its leading zero, contrary
to the claim. -/
theorem format_date_hour_zero_counterexample :
    format_date (some "2024-03-05T14:30:00Z") = "3/05 02:30 PM" ∧
    ((format_date (some "2024-03-05T14:30:00Z")).drop 5).take 2 = "02" := by
  constructor <;> rfl

/-- C6 (amended): `format_date` returns the em-dash placeholder for a
missing (`None`) or unparseable input, and for "2024-03-05T14:30:00Z"
returns "3/05 02:30 PM" — month/day hour:minute with leading zeros
stripped only from the start of the whole string (the month), the hour
keeping its two-digit zero padding. -/
theorem format_date_behavior :
    format_date none = EM_DASH ∧
    format_date (some "not-a-date") = EM_DASH ∧
    format_date (some "2024-03-05T14:30:00Z") = "3/05 02:30 PM" ∧
    (∀ s : String, fromisoformat (replaceZ s) = none →
      format_date (some s) = EM_DASH) := by
  refine ⟨rfl, rfl, rfl, ?_⟩
  intro s hparse
  by_cases hs : s = ""
  · simp [format_date, hs]
  · simp [format_date, hs, hparse]

/-- Witness for C6 (amended), at a concrete unparseable string. -/
theorem format_date_behavior_witness :
    format_date (some "05/03/2024") = EM_DASH :=
  format_date_behavior.2.2.2 "05/03/2024" rfl

/-- C8: `get_manhattan_token` yields `None` — and the `/api/auth` handler
answers with one of the two fixed failure strings, leaking no upstream
detail — whenever the upstream host is unreachable, answers non-2xx, or
answers with a malformed (unparseable) body. Both functions are total, so
no exception escapes to the caller. -/
theorem auth_fails_closed (org : String) (u : AuthUpstream)
    (h : (∃ d, u = .unreachable d) ∨ (∃ b, u = .response false b) ∨
      u = .response true none) :
    get_manhattan_token u = none ∧
    (auth org u = .failure "ORG required" ∨ auth org u = .failure "Auth failed") := by
  have htok : get_manhattan_token u = none := by
    rcases h with ⟨d, rfl⟩ | ⟨b, rfl⟩ | rfl <;> rfl
  refine ⟨htok, ?_⟩
  by_cases ho : pyStrip org = ""
  · left
    simp [auth, ho]
  · right
    simp [auth, ho, htok]

/-- Witness for C8, at a concrete org and an unreachable upstream. -/
theorem auth_fails_closed_witness :
    get_manhattan_token (.unreachable "timeout") = none ∧
    (auth "SA" (.unreachable "timeout") = .failure "ORG required" ∨
      auth "SA" (.unreachable "timeout") = .failure "Auth failed") :=
  auth_fails_closed "SA" (.unreachable "timeout") (Or.inl ⟨"timeout", rfl⟩)

/-- C9: the `/api/ha-track` handler acknowledges success regardless of the
delivery outcome and of whether its own body raised; `send_ha_message`
swallows every delivery failure. -/
theorem ha_track_always_success (h : HandlerOutcome) (d : DeliveryOutcome) :
    ha_track h d = { success := true } ∧ send_ha_message d = () := by
  cases h <;> exact ⟨rfl, rfl⟩

/-- Witness for C9, at a concrete failed delivery. -/
theorem ha_track_always_success_witness :
    ha_track .bodyOk (.deliveryError "timeout") = { success := true } ∧
    send_ha_message (.deliveryError "timeout") = () :=
  ha_track_always_success .bodyOk (.deliveryError "timeout")

/-- C3 counterexample: the one upstream payload the single-id `search`
handler builds for appointment id "A1" carries `Size = 1` and `Page = 0`
(lines 261–265) — not the claimed 1000-record pages — and the handler
body contains no pagination loop (`search` consults its upstream oracle
on exactly this one request). -/
theorem search_payload_size_counterexample :
    search_payload "A1" =
      ⟨"AppointmentId = " ++ singleQuote ++ "A1" ++ singleQuote, 1, 0⟩ ∧
    (search_payload "A1").Size ≠ 1000 :=
  ⟨rfl, by decide⟩

/-- C3 (amended): past the missing-data gate, the single-id search mode
issues exactly one upstream query — `search_payload` of the stripped id,
with page size 1 and page 0 — and its result set is that single page's
records, annotated; it does not paginate. -/
theorem search_single_page (org aid token : String)
    (u : SearchRequest → UpstreamPage)
    (ho : org ≠ "") (ht : token ≠ "") (ha : pyStrip aid ≠ "") :
    search org aid token u =
      .success ((searchResults (u (search_payload (pyStrip aid)))).map annotate) ∧
    (search_payload (pyStrip aid)).Size = 1 ∧
    (search_payload (pyStrip aid)).Page = 0 := by
  refine ⟨?_, rfl, rfl⟩
  simp [search, ho, ht, ha]

/-- An upstream that always answers 2xx with an empty `data` list. -/
def uEmptyPage : SearchRequest → UpstreamPage :=
  fun _ => .response true (some [])

/-- Witness for C3 (amended), at concrete non-blank inputs. -/
theorem search_single_page_witness :
    search "SA" "A1" "tok" uEmptyPage = .success [] :=
  (search_single_page "SA" "A1" "tok" uEmptyPage (by decide) (by decide)
    (by decide)).1.trans rfl

/-- A full page of 1000 identical records followed by a non-2xx page:
page 0 is full, page 1 fails. -/
def schedUpstreamCE : Nat → PageOutcome :=
  fun n => if n = 0 then .data (List.replicate 1000 ⟨some "A1", none, none⟩)
    else .badStatus

/-- Pagination-loop helper: if `k` consecutive full pages starting at
`page` are followed by a failing page, the loop fails, discarding the
accumulated records. -/
theorem scheduledLoop_abort (upstream : Nat → PageOutcome) :
    ∀ (k fuel page : Nat) (acc : List ApptRecord), k < fuel →
      (∀ q, q < k → ∃ l, upstream (page + q) = .data l ∧ l.length = 1000) →
      ((upstream (page + k) = .badStatus →
        scheduledLoop upstream fuel page acc =
          .failure "Failed to fetch scheduled appointments") ∧
       (∀ d, upstream (page + k) = .raises d →
        scheduledLoop upstream fuel page acc = .failure d)) := by
  intro k
  induction k with
  | zero =>
    intro fuel page acc hfuel _
    cases fuel with
    | zero => omega
    | succ f =>
      constructor
      · intro hb
        simp only [Nat.add_zero] at hb
        simp [scheduledLoop, hb]
      · intro d hr
        simp only [Nat.add_zero] at hr
        simp [scheduledLoop, hr]
  | succ k ih =>
    intro fuel page acc hfuel hfull
    cases fuel with
    | zero => omega
    | succ f =>
      obtain ⟨l, hl, hlen⟩ := hfull 0 (Nat.succ_pos k)
      simp only [Nat.add_zero] at hl
      have hnotshort : ¬ l.length < 1000 := by omega
      have hrec : scheduledLoop upstream (f + 1) page acc =
          scheduledLoop upstream f (page + 1) (acc ++ l) := by
        simp [scheduledLoop, hl, hnotshort]
      have hfull2 : ∀ q, q < k →
          ∃ l2, upstream (page + 1 + q) = .data l2 ∧ l2.length = 1000 := by
        intro q hq
        have hx := hfull (q + 1) (by omega)
        have harith : page + (q + 1) = page + 1 + q := by omega
        rwa [harith] at hx
      have harith2 : page + (k + 1) = page + 1 + k := by omega
      rw [hrec, harith2]
      exact ih f (page + 1) (acc ++ l) (by omega) hfull2

/-- C4 counterexample: with a full first page and a non-2xx second page,
the scheduled fetch returns the failure body of line 234 — it does not
return a success result built from the first page's 1000 records. -/
theorem scheduled_abort_counterexample :
    scheduled schedUpstreamCE 3 = .failure "Failed to fetch scheduled appointments" := by
  refine (scheduledLoop_abort schedUpstreamCE 1 3 0 [] (by omega) ?_).1 rfl
  intro q hq
  have hq0 : q = 0 := by omega
  subst hq0
  exact ⟨List.replicate 1000 ⟨some "A1", none, none⟩, rfl, by
    rw [List.length_replicate]⟩

/-- C4 (amended): a failure of one page request aborts the whole
scheduled-appointments fetch and discards the records of the pages
already fetched: a non-2xx page makes the operation return the fixed
failure "Failed to fetch scheduled appointments" (line 234), and a
transport error or parse failure makes it return failure with the
exception's text (line 243). -/
theorem scheduled_page_failure_aborts (upstream : Nat → PageOutcome) (k fuel : Nat)
    (hfuel : k < fuel)
    (hfull : ∀ q, q < k → ∃ l, upstream q = .data l ∧ l.length = 1000) :
    (upstream k = .badStatus →
      scheduled upstream fuel = .failure "Failed to fetch scheduled appointments") ∧
    (∀ d, upstream k = .raises d → scheduled upstream fuel = .failure d) := by
  have h := scheduledLoop_abort upstream k fuel 0 [] hfuel (by simpa using hfull)
  simpa [scheduled] using h

/-- An upstream whose very first page request raises a transport error. -/
def schedUpstreamW : Nat → PageOutcome :=
  fun _ => .raises "Connection timed out"

/-- Witness for C4 (amended): a transport error on page 0 surfaces as a
failure with the exception's text. -/
theorem scheduled_page_failure_aborts_witness :
    scheduled schedUpstreamW 1 = .failure "Connection timed out" :=
  (scheduled_page_failure_aborts schedUpstreamW 0 1 (by decide)
    (fun q hq => absurd hq (Nat.not_lt_zero q))).2 "Connection timed out" rfl

/-- An upstream whose one search request raises a transport error. -/
def uFailPage : SearchRequest → UpstreamPage :=
  fun _ => .transportError "Connection refused"

/-- C10 counterexample: org, appointment_id and token are all present and
non-empty, yet `search` answers `{"success": false, "error": "Missing
data"}`, because the blank appointment id strips to the empty string
before the `all([...])` gate (line 249). -/
theorem search_blank_id_counterexample :
    ("SA" ≠ "") ∧ (" " ≠ "") ∧ ("tok" ≠ "") ∧
    search "SA" " " "tok" uEmptyPage = .failure "Missing data" := by
  refine ⟨by decide, by decide, by decide, ?_⟩
  rfl

/-- C10 (amended): when org and token are non-empty and the appointment
id is non-empty after stripping whitespace, `search` always answers
success; a transport error, a non-2xx response, or an unparseable body
degrades to the empty results list instead of a failure response. -/
theorem search_always_success (org aid token : String)
    (u : SearchRequest → UpstreamPage)
    (ho : org ≠ "") (ht : token ≠ "") (ha : pyStrip aid ≠ "") :
    (∃ rs, search org aid token u = .success rs) ∧
    (∀ d, u (search_payload (pyStrip aid)) = .transportError d →
      search org aid token u = .success []) ∧
    (∀ b, u (search_payload (pyStrip aid)) = .response false b →
      search org aid token u = .success []) ∧
    (u (search_payload (pyStrip aid)) = .response true none →
      search org aid token u = .success []) := by
  have hmain : search org aid token u =
      .success ((searchResults (u (search_payload (pyStrip aid)))).map annotate) := by
    simp [search, ho, ht, ha]
  refine ⟨⟨_, hmain⟩, ?_, ?_, ?_⟩
  · intro d hd
    rw [hmain, hd]
    simp [searchResults]
  · intro b hb
    rw [hmain, hb]
    simp [searchResults]
  · intro hn
    rw [hmain, hn]
    simp [searchResults]

/-- Witness for C10 (amended): a transport failure degrades to
`{"success": true, "results": []}`. -/
theorem search_always_success_witness :
    search "SA" "A1" "tok" uFailPage = .success [] :=
  (search_always_success "SA" "A1" "tok" uFailPage (by decide) (by decide)
    (by decide)).2.1 "Connection refused" rfl

/-- Dedup helper: the kept records have pairwise-distinct
`AppointmentId`s, none of which is in `seen`. -/
theorem dedupById_nodup (l : List ApptRecord) (seen : List (Option String)) :
    ((dedupById l seen).map (fun r => r.AppointmentId)).Nodup ∧
    ∀ x ∈ (dedupById l seen).map (fun r => r.AppointmentId), x ∉ seen := by
  induction l generalizing seen with
  | nil => simp [dedupById]
  | cons r rest ih =>
    by_cases h : r.AppointmentId ∈ seen
    · simpa [dedupById, h] using ih seen
    · have ihx := ih (r.AppointmentId :: seen)
      simp only [dedupById, if_neg h]
      constructor
      · simp only [List.map_cons, List.nodup_cons]
        refine ⟨fun hmem => (ihx.2 _ hmem) (List.mem_cons_self _ _), ihx.1⟩
      · intro x hx
        simp only [List.map_cons, List.mem_cons] at hx
        rcases hx with rfl | hx
        · exact h
        · exact fun hxseen => (ihx.2 x hx) (List.mem_cons_of_mem _ hxseen)

/-- Dedup helper: the kept records are a sublist of the input, so
insertion order is preserved and later duplicates are discarded. -/
theorem dedupById_sublist (l : List ApptRecord) (seen : List (Option String)) :
    (dedupById l seen).Sublist l := by
  induction l generalizing seen with
  | nil => simp [dedupById]
  | cons r rest ih =>
    by_cases h : r.AppointmentId ∈ seen
    · simp only [dedupById, if_pos h]
      exact (ih seen).trans (List.sublist_cons_self r rest)
    · simp only [dedupById, if_neg h]
      exact (ih (r.AppointmentId :: seen)).cons₂ r

/-- Dedup helper: each kept record is the first record of the input with
its `AppointmentId` (first occurrence wins). -/
theorem dedupById_first_occurrence (l : List ApptRecord) (seen : List (Option String)) :
    ∀ r ∈ dedupById l seen,
      r.AppointmentId ∉ seen ∧
      l.find? (fun x => decide (x.AppointmentId = r.AppointmentId)) = some r := by
  induction l generalizing seen with
  | nil => simp [dedupById]
  | cons x rest ih =>
    by_cases h : x.AppointmentId ∈ seen
    · simp only [dedupById, if_pos h]
      intro r hr
      obtain ⟨hns, hfind⟩ := ih seen r hr
      have hne : ¬ (x.AppointmentId = r.AppointmentId) := by
        intro heq
        exact hns (heq ▸ h)
      rw [List.find?_cons_of_neg _ (by simpa using hne)]
      exact ⟨hns, hfind⟩
    · simp only [dedupById, if_neg h]
      intro r hr
      rcases List.mem_cons.mp hr with rfl | hr
      · exact ⟨h, List.find?_cons_of_pos _ (by simp)⟩
      · obtain ⟨hns, hfind⟩ := ih (x.AppointmentId :: seen) r hr
        have hne2 : x.AppointmentId ≠ r.AppointmentId :=
          fun heq => hns (heq ▸ List.mem_cons_self _ _)
        refine ⟨fun hs => hns (List.mem_cons_of_mem _ hs), ?_⟩
        rw [List.find?_cons_of_neg _ (by simpa using hne2)]
        exact hfind

/-- C7: on every well-formed (tokenizable) criteria string, the
multi-criterion search returns the per-criterion result lists merged
keyed on `AppointmentId` — a sublist of their concatenation in which each
kept record is the first occurrence of its id — so the returned result
set carries pairwise-distinct `AppointmentId` values however many
criteria matched the same appointment. -/
theorem multiSearch_unique_ids (upstream : String → List ApptRecord)
    (criteriaText : String) :
    ∀ rs, multiSearch upstream criteriaText = some rs →
      (rs.map (fun a => a.AppointmentId)).Nodup ∧
      rs = (dedupById (((tokenizeCriteria criteriaText).map upstream).flatten) []).map
        annotate ∧
      (dedupById (((tokenizeCriteria criteriaText).map upstream).flatten) []).Sublist
        (((tokenizeCriteria criteriaText).map upstream).flatten) ∧
      (∀ r ∈ dedupById (((tokenizeCriteria criteriaText).map upstream).flatten) [],
        (((tokenizeCriteria criteriaText).map upstream).flatten).find?
          (fun x => decide (x.AppointmentId = r.AppointmentId)) = some r) := by
  intro rs hrs
  by_cases htok : tokenizeCriteria criteriaText = []
  · simp [multiSearch, htok] at hrs
  · have hrs2 : rs =
        (dedupById (((tokenizeCriteria criteriaText).map upstream).flatten) []).map
          annotate := by
      unfold multiSearch at hrs
      rw [if_neg htok] at hrs
      exact (Option.some.inj hrs).symm
    refine ⟨?_, hrs2, dedupById_sublist _ _, ?_⟩
    · have hnodup :=
        (dedupById_nodup (((tokenizeCriteria criteriaText).map upstream).flatten) []).1
      have hmaps :
          (((dedupById (((tokenizeCriteria criteriaText).map upstream).flatten) []).map
            annotate).map (fun a => a.AppointmentId)) =
          (dedupById (((tokenizeCriteria criteriaText).map upstream).flatten) []).map
            (fun r => r.AppointmentId) := by
        rw [List.map_map]
        rfl
      rw [hrs2, hmaps]
      exact hnodup
    · intro r hr
      exact (dedupById_first_occurrence _ _ r hr).2

/-- Per-criterion upstream results where every criterion matches the same
single appointment. -/
def uDup : String → List ApptRecord :=
  fun _ => [⟨some "A100", none, none⟩]

/-- Witness for C7, at the spec's tokenizer example string with three
criteria all matching the same appointment: the merged result keeps one
record and its id list is duplicate-free. -/
theorem multiSearch_unique_ids_witness :
    (([annotate ⟨some "A100", none, none⟩].map (fun a => a.AppointmentId)).Nodup) :=
  (multiSearch_unique_ids uDup "ABC123, def-456; ghi789"
    [annotate ⟨some "A100", none, none⟩] rfl).1
